import Mathlib

/-!
Verification of the micam session bridge (src/micam/__init__.py) against its
natural-language specification.  Byte strings are modelled as `List Nat`,
machine integers as `Nat`, and fallible operations by explicit outcome types.
Components the specification describes for the full pipeline but that are not
implemented by the `RTSPBridge` iteration in the source file (the tag-routing
stream demultiplexer, the bounded pipe channel and the outer session
supervisor loop) are modelled from the specification text and marked as such
in their doc comments.
-/

namespace Micam

/-- Byte strings of the Python source are modelled as lists of naturals
(the source only reads bytes; no upper bound is needed for any property
proved here).  `byteAt data i` embeds the Python indexing expression
`data[i]`; the source only evaluates it at in-range indices (see the
totality theorem for the detector), so the fallback value 0 is never
consulted by the embedded code. -/
def byteAt (data : List Nat) (i : Nat) : Nat := (data[i]?).getD 0

/-- Embedding of the loop body of the `h264` branch of
`RTSPBridge._is_keyframe` (source lines 190-200): true exactly when the body
executes `return True` at index `i`, i.e. a start code begins at `i`
(`00 00 01` or `00 00 00 01`) and the following in-range NAL header has unit
type 5 (IDR).  The nested ifs mirror Python's short-circuit evaluation:
`data[i+3]` is consulted for the start-code test only when `data[i+2] == 0`. -/
def h264_hit (data : List Nat) (i : Nat) : Bool :=
  if byteAt data i == 0 then
    if byteAt data (i+1) == 0 then
      let b2 := byteAt data (i+2)
      let sc := if b2 == 0 then byteAt data (i+3) == 1 else b2 == 1
      if sc then
        let nal_start_offset := if b2 == 1 then 3 else 4
        if i + nal_start_offset < data.length then
          ((byteAt data (i + nal_start_offset)) &&& 0x1f) == 5
        else false
      else false
    else false
  else false

/-- Embedding of the `h264` scan loop `while i < len(data) - 4` of
`RTSPBridge._is_keyframe`; `fuel` is the number of remaining iterations,
kept equal to `data.length - 4 - i` by every caller.  Natural subtraction
matches the Python loop, which performs no iteration when
`len(data) <= 4` (the bound `len(data) - 4` is then non-positive). -/
def h264_loop (data : List Nat) : Nat → Nat → Bool
  | _, 0 => false
  | i, fuel + 1 => if h264_hit data i then true else h264_loop data (i+1) fuel

/-- Embedding of the loop body of the `hevc` branch of
`RTSPBridge._is_keyframe` (source lines 205-214): true exactly when a start
code begins at `i` and the following in-range NAL header has a unit type in
the HEVC IRAP range 16-21. -/
def hevc_hit (data : List Nat) (i : Nat) : Bool :=
  if byteAt data i == 0 then
    if byteAt data (i+1) == 0 then
      let b2 := byteAt data (i+2)
      let sc := if b2 == 0 then byteAt data (i+3) == 1 else b2 == 1
      if sc then
        let nal_start := if b2 == 1 then i + 3 else i + 4
        if nal_start < data.length then
          [16, 17, 18, 19, 20, 21].contains (((byteAt data nal_start) >>> 1) &&& 0x3f)
        else false
      else false
    else false
  else false

/-- Embedding of the `hevc` scan loop `while i < len(data) - 6` of
`RTSPBridge._is_keyframe`; `fuel` equals `data.length - 6 - i` at every
call. -/
def hevc_loop (data : List Nat) : Nat → Nat → Bool
  | _, 0 => false
  | i, fuel + 1 => if hevc_hit data i then true else hevc_loop data (i+1) fuel

/-- Embedding of `RTSPBridge._is_keyframe` (source lines 185-218): dispatch on
the configured codec string; an unrecognized codec falls through to `True`
(fail-open). -/
def is_keyframe (video_codec : String) (data : List Nat) : Bool :=
  if video_codec == "h264" then h264_loop data 0 (data.length - 4)
  else if video_codec == "hevc" then hevc_loop data 0 (data.length - 6)
  else true

/-- Bounds-checked byte access: `some` of the byte when the index is in
range, `none` otherwise.  Used by the bounds-checked rendering of the
detector below: a Python `IndexError` corresponds to `none`. -/
def getByte (data : List Nat) (i : Nat) : Option Nat := data[i]?

/-- Bounds-checked rendering of the `h264` loop body: every byte access of
the source is performed through `getByte`, in the same order and under the
same short-circuit conditions as in Python, so the result is `none` exactly
when the Python body would raise an `IndexError`. -/
def h264_hit_checked (data : List Nat) (i : Nat) : Option Bool := do
  let b0 ← getByte data i
  if b0 == 0 then
    let b1 ← getByte data (i+1)
    if b1 == 0 then
      let b2 ← getByte data (i+2)
      let sc ← if b2 == 0 then do
          let b3 ← getByte data (i+3)
          pure (b3 == 1)
        else pure (b2 == 1)
      if sc then
        let nal_start_offset := if b2 == 1 then 3 else 4
        if i + nal_start_offset < data.length then do
          let nb ← getByte data (i + nal_start_offset)
          pure ((nb &&& 0x1f) == 5)
        else pure false
      else pure false
    else pure false
  else pure false

/-- Bounds-checked rendering of the `h264` scan loop. -/
def h264_loop_checked (data : List Nat) : Nat → Nat → Option Bool
  | _, 0 => some false
  | i, fuel + 1 => do
    let hit ← h264_hit_checked data i
    if hit then some true else h264_loop_checked data (i+1) fuel

/-- Bounds-checked rendering of the `hevc` loop body. -/
def hevc_hit_checked (data : List Nat) (i : Nat) : Option Bool := do
  let b0 ← getByte data i
  if b0 == 0 then
    let b1 ← getByte data (i+1)
    if b1 == 0 then
      let b2 ← getByte data (i+2)
      let sc ← if b2 == 0 then do
          let b3 ← getByte data (i+3)
          pure (b3 == 1)
        else pure (b2 == 1)
      if sc then
        let nal_start := if b2 == 1 then i + 3 else i + 4
        if nal_start < data.length then do
          let nb ← getByte data nal_start
          pure ([16, 17, 18, 19, 20, 21].contains ((nb >>> 1) &&& 0x3f))
        else pure false
      else pure false
    else pure false
  else pure false

/-- Bounds-checked rendering of the `hevc` scan loop. -/
def hevc_loop_checked (data : List Nat) : Nat → Nat → Option Bool
  | _, 0 => some false
  | i, fuel + 1 => do
    let hit ← hevc_hit_checked data i
    if hit then some true else hevc_loop_checked data (i+1) fuel

/-- Bounds-checked rendering of `RTSPBridge._is_keyframe`: evaluates to
`none` exactly when the Python method would raise an `IndexError`. -/
def is_keyframe_checked (video_codec : String) (data : List Nat) : Option Bool :=
  if video_codec == "h264" then h264_loop_checked data 0 (data.length - 4)
  else if video_codec == "hevc" then hevc_loop_checked data 0 (data.length - 6)
  else some true

/-- Initial value of the keyframe gate `self.waiting_for_keyframe`,
set in `RTSPBridge.__init__` (source line 36): a new bridge instance, hence a
new session, starts with the gate engaged. -/
def init_waiting_for_keyframe : Bool := true

/-- Embedding of the keyframe-gating step for one BINARY frame in
`RTSPBridge.run` (source lines 153-161): given the gate state, returns the
new gate state and `some data` when the frame is forwarded to the process
(`await self.process_write(msg.data)`), or `none` when the `continue`
branch drops it.  When the gate is already off the payload is forwarded
without calling the detector at all, exactly as in the source. -/
def handle_binary (video_codec : String) (waiting : Bool) (data : List Nat) :
    Bool × Option (List Nat) :=
  if waiting then
    if is_keyframe video_codec data then (false, some data)
    else (true, none)
  else (waiting, some data)

/-- Folding `handle_binary` over a whole session's sequence of binary video
frames: returns the final gate state and the list of payloads forwarded to
the process, in order. -/
def run_frames (video_codec : String) : Bool → List (List Nat) → Bool × List (List Nat)
  | waiting, [] => (waiting, [])
  | waiting, d :: rest =>
    match handle_binary video_codec waiting d with
    | (w2, none) => run_frames video_codec w2 rest
    | (w2, some out) =>
      let res := run_frames video_codec w2 rest
      (res.1, out :: res.2)

/-- WebSocket message classification as consumed by the receive loop in
`RTSPBridge.run` (source lines 147-178): `aiohttp.WSMsgType.BINARY`, `ERROR`,
the close family (`CLOSE`, `CLOSING`, `CLOSED`), or any other message type. -/
inductive WSMsg where
  | binary (data : List Nat)
  | wsError
  | wsClose
  | otherType
deriving DecidableEq

/-- Outcome of `asyncio.wait_for(ws.receive(), timeout=60.0)`
(source line 142): a message, or the 60 s receive deadline elapsing. -/
inductive RecvOutcome where
  | msg (m : WSMsg)
  | recvTimeout
deriving DecidableEq

/-- Receive deadline of the loop, seconds (source line 142). -/
def recv_timeout_seconds : Nat := 60

/-- Outcome of the bounded write
`asyncio.wait_for(self.process_write(msg.data), timeout=10.0)`
(source line 161): the write completes, the 10 s stall timeout elapses, or
the write fails with `BrokenPipeError` because the process died. -/
inductive WriteResult where
  | completed
  | writeTimeout
  | brokenPipe
deriving DecidableEq

/-- Write stall timeout of the loop, seconds (source line 161). -/
def write_timeout_seconds : Nat := 10

/-- Result of one iteration of the receive loop: keep looping (with the new
gate state) or break out to teardown. -/
inductive LoopStep where
  | continueLoop (waiting : Bool)
  | exitLoop
deriving DecidableEq

/-- Embedding of one iteration of the `while True` receive loop of
`RTSPBridge.run` (source lines 140-178).  `r` is what the bounded receive
produced and `w` the outcome of the bounded process write when one is
attempted (i.e. when the frame is binary and passes the keyframe gate). -/
def loop_iteration (video_codec : String) (waiting : Bool)
    (r : RecvOutcome) (w : WriteResult) : LoopStep :=
  match r with
  | .recvTimeout => .exitLoop
  | .msg .wsError => .exitLoop
  | .msg .wsClose => .exitLoop
  | .msg .otherType => .continueLoop waiting
  | .msg (.binary d) =>
    match handle_binary video_codec waiting d with
    | (w2, none) => .continueLoop w2
    | (w2, some _) =>
      match w with
      | .completed => .continueLoop w2
      | .writeTimeout => .exitLoop
      | .brokenPipe => .exitLoop

/-- Outcome of one vendor HTTP call as observed by `RTSPBridge._login`:
either a response with an HTTP status code, or a raised transport exception
(DNS, TLS, connection refused, malformed body...), which the method's
`except Exception` handler catches. -/
inductive HttpResult where
  | response (status : Nat)
  | transportError
deriving DecidableEq

/-- Embedding of `RTSPBridge._login` (source lines 38-63).  `login_resp` is
the outcome of `POST /api/auth/login` and `status_resp` the outcome of
`GET /api/miot/login_status`; the second call is only performed when the
first returned HTTP 200, and each call is consulted exactly once (no
internal retry).  Every non-200 status and every exception yields `false`;
no path raises. -/
def login (login_resp status_resp : HttpResult) : Bool :=
  match login_resp with
  | .response s =>
    if s == 200 then
      match status_resp with
      | .response s2 => if s2 == 200 then true else false
      | .transportError => false
    else false
  | .transportError => false

/-- State of the process handle as seen through `self.process.poll()`:
still running (`poll()` returns `None`) or already exited. -/
inductive ProcPoll where
  | running
  | exited
deriving DecidableEq

/-- What `RTSPBridge._stop_ffmpeg` did to the process. -/
inductive StopAction where
  | noop
  | terminated
  | killed
deriving DecidableEq

/-- Grace period of `self.process.wait(timeout=5)` in
`RTSPBridge._stop_ffmpeg` (source line 115), seconds. -/
def stop_grace_seconds : Nat := 5

/-- Embedding of `RTSPBridge._stop_ffmpeg` (source lines 109-118).
`process` is `self.process` (`none` when it was already cleared);
`exits_in_grace` tells whether the process exits within the 5 s grace period
after `terminate()` (otherwise `wait` raises `TimeoutExpired` and the method
falls back to `kill()`).  Returns the new `self.process` field and the
action performed. -/
def stop_ffmpeg (process : Option ProcPoll) (exits_in_grace : Bool) :
    Option ProcPoll × StopAction :=
  match process with
  | none => (none, .noop)
  | some .exited => (none, .noop)
  | some .running =>
    if exits_in_grace then (none, .terminated) else (none, .killed)

/-- Reason a session attempt of `RTSPBridge.run` ends (source lines
120-183): login failure, the receive deadline, the write stall timeout, a
broken pipe (process died), a WebSocket error or close, or any other
exception escaping the streaming block. -/
inductive SessionEnd where
  | loginFailure
  | recvDeadline
  | writeStall
  | processDied
  | wsErrored
  | wsClosed
  | streamException
deriving DecidableEq

/-- Externally visible lifecycle actions of `RTSPBridge.run`. -/
inductive SessionAction where
  | startProcess
  | loginAttempt (ok : Bool)
  | wsConnect
  | stopProcess
deriving DecidableEq

/-- Embedding of the control flow of `RTSPBridge.run` (source lines
120-183) as the sequence of lifecycle actions performed for each way the
session can end: on login failure the method stops the process and returns
(lines 127-129); on every other path the `try/finally` around the streaming
block runs `self._stop_ffmpeg()` in `finally` (lines 181-183). -/
def run_actions (e : SessionEnd) : List SessionAction :=
  match e with
  | .loginFailure => [.startProcess, .loginAttempt false, .stopProcess]
  | _ => [.startProcess, .loginAttempt true, .wsConnect, .stopProcess]

/-- Specification-side predicate: a start code (`00 00 01` or `00 00 00 01`)
begins at index `i` of the payload and the byte immediately after it is in
range and is an H.264 NAL header of unit type 5 (IDR).  The explicit length
guards make every `byteAt` access in range, so this is exactly "the payload
contains, at `i`, a start code followed by a qualifying NAL header". -/
def spec_h264_idr_at (data : List Nat) (i : Nat) : Bool :=
  (decide (i + 3 < data.length) && (byteAt data i == 0) && (byteAt data (i+1) == 0) &&
    (byteAt data (i+2) == 1) && (((byteAt data (i+3)) &&& 0x1f) == 5)) ||
  (decide (i + 4 < data.length) && (byteAt data i == 0) && (byteAt data (i+1) == 0) &&
    (byteAt data (i+2) == 0) && (byteAt data (i+3) == 1) &&
    (((byteAt data (i+4)) &&& 0x1f) == 5))

/-- Specification-side predicate: a start code begins at index `i` and the
byte after it is in range and is an HEVC NAL header whose unit type lies in
the IRAP range 16-21. -/
def spec_hevc_irap_at (data : List Nat) (i : Nat) : Bool :=
  (decide (i + 3 < data.length) && (byteAt data i == 0) && (byteAt data (i+1) == 0) &&
    (byteAt data (i+2) == 1) &&
    (decide (16 ≤ ((byteAt data (i+3)) >>> 1) &&& 0x3f) &&
     decide (((byteAt data (i+3)) >>> 1) &&& 0x3f ≤ 21))) ||
  (decide (i + 4 < data.length) && (byteAt data i == 0) && (byteAt data (i+1) == 0) &&
    (byteAt data (i+2) == 0) && (byteAt data (i+3) == 1) &&
    (decide (16 ≤ ((byteAt data (i+4)) >>> 1) &&& 0x3f) &&
     decide (((byteAt data (i+4)) >>> 1) &&& 0x3f ≤ 21)))

/-- Specification-side formulation of "the payload contains a start code
followed by a NAL header whose unit type qualifies" for the H.264 variant:
some position of the payload satisfies `spec_h264_idr_at`. -/
def spec_h264_contains_idr (data : List Nat) : Bool :=
  (List.range data.length).any (fun i => spec_h264_idr_at data i)

/-- Specification-side formulation of the qualifying-NAL containment for the
HEVC variant. -/
def spec_hevc_contains_irap (data : List Nat) : Bool :=
  (List.range data.length).any (fun i => spec_hevc_irap_at data i)

/-- Destination channel of a demultiplexed media frame. -/
inductive StreamType where
  | video
  | audio
deriving DecidableEq

/-- Modelled from the spec: the StreamDemuxer frame-decoding contract
(specification section 4.2).  The tag-routing demultiplexer belongs to the
full pipeline and is not implemented by the `RTSPBridge` iteration in the
source file, which forwards each binary frame whole to a single sink; it is
therefore rendered from the specification's words: a frame shorter than 2
bytes is dropped (`none`); otherwise byte 0 is the stream-type tag, `1`
routing to the video channel, `2` to the audio channel, any other value
dropping the frame; the forwarded payload is bytes 1..end, unmodified. -/
def demux_frame (frame : List Nat) : Option (StreamType × List Nat) :=
  if frame.length < 2 then none
  else
    match frame with
    | [] => none
    | tag :: payload =>
      if tag == 1 then some (.video, payload)
      else if tag == 2 then some (.audio, payload)
      else none

/-- Modelled from the spec: running the StreamDemuxer over a whole sequence
of received binary frames, accumulating what each PipeChannel receives, in
arrival order (video outputs, audio outputs). -/
def demux_run : List (List Nat) → List (List Nat) × List (List Nat)
  | [] => ([], [])
  | f :: rest =>
    let res := demux_run rest
    match demux_frame f with
    | some (.video, p) => (p :: res.1, res.2)
    | some (.audio, p) => (res.1, p :: res.2)
    | none => res

/-- Failure event ending one session attempt, as enumerated by the
specification's SessionSupervisor state machine (section 4.5). -/
inductive FailureEvent where
  | loginFailure
  | wsClosed
  | wsErrored
  | recvDeadline
  | writeStall
  | processDeath
deriving DecidableEq

/-- Phase of the specification's SessionSupervisor state machine. -/
inductive SupPhase where
  | authenticating
  | streaming
  | teardown
  | delaying
deriving DecidableEq

/-- State of the supervisor: the index of the current session attempt and
the phase the attempt is in. -/
structure SupState where
  attempt : Nat
  phase : SupPhase
deriving DecidableEq

/-- Modelled from the spec: the fixed restart delay of the supervisor loop
(specification section 4.5, "waits a fixed delay (e.g. 3 s) before the next
attempt"), seconds. -/
def restart_delay_seconds : Nat := 3

/-- Modelled from the spec: one transition of the SessionSupervisor control
loop (specification section 4.5), which is not implemented by the
`RTSPBridge` iteration in the source file (whose `run` performs a single
session attempt).  `events n` is the failure that ends attempt `n`:
a login failure moves `AUTHENTICATING` straight to `TEARDOWN`; otherwise the
attempt streams and later fails, moving `STREAMING` to `TEARDOWN`; teardown
is followed by the fixed delay, after which the next attempt begins. -/
def supervisor_step (events : Nat → FailureEvent) (s : SupState) : SupState :=
  match s.phase with
  | .authenticating =>
    if events s.attempt = .loginFailure then ⟨s.attempt, .teardown⟩
    else ⟨s.attempt, .streaming⟩
  | .streaming => ⟨s.attempt, .teardown⟩
  | .teardown => ⟨s.attempt, .delaying⟩
  | .delaying => ⟨s.attempt + 1, .authenticating⟩

/-- Modelled from the spec: the supervisor run, starting attempt 0 in the
authenticating phase and applying `supervisor_step` forever. -/
def supervisor_iter (events : Nat → FailureEvent) : Nat → SupState
  | 0 => ⟨0, .authenticating⟩
  | k + 1 => supervisor_step events (supervisor_iter events k)

/-- Error a PipeChannel can raise (only `open` raises it; `write` never
does). -/
inductive PipeError where
  | openFailed
deriving DecidableEq

/-- Modelled from the spec: producer-side state of a PipeChannel
(specification sections 3 and 4.3) — a bounded queue of byte chunks with a
fixed capacity.  The PipeChannel belongs to the full pipeline and is not
implemented by the `RTSPBridge` iteration in the source file, which writes
directly to the process stdin. -/
structure PipeChannel where
  capacity : Nat
  queue : List (List Nat)
deriving DecidableEq

/-- Modelled from the spec: the short producer-side enqueue timeout of
`PipeChannel.write` ("on the order of 10 ms"), milliseconds. -/
def enqueue_timeout_ms : Nat := 10

/-- Modelled from the spec: `PipeChannel.write` (specification section 4.3):
the producer attempts a bounded enqueue with the short timeout; if a slot is
free within it the chunk is appended (`true`), otherwise the full-queue
exception is caught, the chunk is dropped (`false`) and no error is raised —
both branches return `Except.ok`.  The model abstracts the timeout by its
outcome: a queue still full after the bounded wait is a full queue here. -/
def PipeChannel.write (ch : PipeChannel) (chunk : List Nat) :
    Except PipeError (PipeChannel × Bool) :=
  if ch.queue.length < ch.capacity then
    .ok ({ ch with queue := ch.queue ++ [chunk] }, true)
  else
    .ok (ch, false)

/-- Modelled from the spec: the producer writing a whole sequence of chunks,
one `PipeChannel.write` after the other (the `.error` branch is unreachable,
as proved below). -/
def PipeChannel.writeAll : PipeChannel → List (List Nat) → PipeChannel
  | ch, [] => ch
  | ch, c :: rest =>
    match ch.write c with
    | .ok res => PipeChannel.writeAll res.1 rest
    | .error _ => ch

/-- Once the keyframe gate is off, every frame is forwarded unchanged and in
order, and the gate stays off. -/
theorem run_frames_gate_off (video_codec : String) (l : List (List Nat)) :
    run_frames video_codec false l = (false, l) := by
  induction l with
  | nil => rfl
  | cons d rest ih => simp [run_frames, handle_binary, ih]

/-- The video channel of the demuxer receives exactly the tails of the
well-formed frames tagged 1, in arrival order. -/
theorem demux_video_channel (frames : List (List Nat)) :
    (demux_run frames).1 =
      (frames.filter (fun f => decide (2 ≤ f.length) && (f.headD 0 == 1))).map
        (fun f => f.drop 1) := by
  induction frames with
  | nil => rfl
  | cons f rest ih =>
    match f with
    | [] => simpa [demux_run, demux_frame] using ih
    | [t] => simpa [demux_run, demux_frame] using ih
    | t :: q :: p =>
      have hlen : ¬ (p.length + 1 + 1 < 2) := by omega
      by_cases h1 : t = 1
      · subst h1
        simp [demux_run, demux_frame, ih, hlen]
      · by_cases h2 : t = 2
        · subst h2
          simp [demux_run, demux_frame, ih, hlen]
        · simp [demux_run, demux_frame, h1, h2, ih, hlen]

/-- The audio channel of the demuxer receives exactly the tails of the
well-formed frames tagged 2, in arrival order. -/
theorem demux_audio_channel (frames : List (List Nat)) :
    (demux_run frames).2 =
      (frames.filter (fun f => decide (2 ≤ f.length) && (f.headD 0 == 2))).map
        (fun f => f.drop 1) := by
  induction frames with
  | nil => rfl
  | cons f rest ih =>
    match f with
    | [] => simpa [demux_run, demux_frame] using ih
    | [t] => simpa [demux_run, demux_frame] using ih
    | t :: q :: p =>
      have hlen : ¬ (p.length + 1 + 1 < 2) := by omega
      by_cases h1 : t = 1
      · subst h1
        simp [demux_run, demux_frame, ih, hlen]
      · by_cases h2 : t = 2
        · subst h2
          simp [demux_run, demux_frame, ih, hlen]
        · simp [demux_run, demux_frame, h1, h2, ih, hlen]

/-- Writing chunks never changes the channel capacity. -/
theorem writeAll_capacity (chunks : List (List Nat)) (ch : PipeChannel) :
    (ch.writeAll chunks).capacity = ch.capacity := by
  induction chunks generalizing ch with
  | nil => rfl
  | cons c rest ih =>
    by_cases h : ch.queue.length < ch.capacity
    · simp [PipeChannel.writeAll, PipeChannel.write, h, ih]
    · simp [PipeChannel.writeAll, PipeChannel.write, h, ih]

/-- Bounded-queue invariant: however many chunks the producer writes, the
queue never exceeds the channel capacity. -/
theorem writeAll_queue_bound (chunks : List (List Nat)) (ch : PipeChannel)
    (h : ch.queue.length ≤ ch.capacity) :
    (ch.writeAll chunks).queue.length ≤ ch.capacity := by
  induction chunks generalizing ch with
  | nil => exact h
  | cons c rest ih =>
    by_cases hlt : ch.queue.length < ch.capacity
    · have hq : ({ ch with queue := ch.queue ++ [c] } : PipeChannel).queue.length ≤
          ({ ch with queue := ch.queue ++ [c] } : PipeChannel).capacity := by
        simp
        omega
      have := ih { ch with queue := ch.queue ++ [c] } hq
      simpa [PipeChannel.writeAll, PipeChannel.write, hlt] using this
    · have := ih ch h
      simpa [PipeChannel.writeAll, PipeChannel.write, hlt] using this

/-- The fuel-indexed scan loop returns true exactly when some index it
visits satisfies the body's return condition. -/
theorem h264_loop_eq_true_iff (data : List Nat) (fuel : Nat) :
    ∀ i, (h264_loop data i fuel = true ↔ ∃ j, j < fuel ∧ h264_hit data (i + j) = true) := by
  induction fuel with
  | zero => intro i; simp [h264_loop]
  | succ fuel ih =>
    intro i
    simp only [h264_loop]
    by_cases h : h264_hit data i = true
    · rw [if_pos h]
      exact iff_of_true rfl ⟨0, Nat.succ_pos _, by simpa using h⟩
    · rw [if_neg h, ih (i+1)]
      constructor
      · rintro ⟨j, hj, hhit⟩
        refine ⟨j + 1, by omega, ?_⟩
        have : i + (j + 1) = i + 1 + j := by omega
        rw [this]
        exact hhit
      · rintro ⟨j, hj, hhit⟩
        match j with
        | 0 => exact absurd (by simpa using hhit) h
        | j + 1 =>
          refine ⟨j, by omega, ?_⟩
          have : i + 1 + j = i + (j + 1) := by omega
          rw [this]
          exact hhit

/-- The fuel-indexed hevc scan loop returns true exactly when some index it
visits satisfies the body's return condition. -/
theorem hevc_loop_eq_true_iff (data : List Nat) (fuel : Nat) :
    ∀ i, (hevc_loop data i fuel = true ↔ ∃ j, j < fuel ∧ hevc_hit data (i + j) = true) := by
  induction fuel with
  | zero => intro i; simp [hevc_loop]
  | succ fuel ih =>
    intro i
    simp only [hevc_loop]
    by_cases h : hevc_hit data i = true
    · rw [if_pos h]
      exact iff_of_true rfl ⟨0, Nat.succ_pos _, by simpa using h⟩
    · rw [if_neg h, ih (i+1)]
      constructor
      · rintro ⟨j, hj, hhit⟩
        refine ⟨j + 1, by omega, ?_⟩
        have : i + (j + 1) = i + 1 + j := by omega
        rw [this]
        exact hhit
      · rintro ⟨j, hj, hhit⟩
        match j with
        | 0 => exact absurd (by simpa using hhit) h
        | j + 1 =>
          refine ⟨j, by omega, ?_⟩
          have : i + 1 + j = i + (j + 1) := by omega
          rw [this]
          exact hhit

/-- Membership in the literal IRAP list is the interval test 16-21. -/
theorem contains_irap (t : Nat) :
    ([16, 17, 18, 19, 20, 21].contains t) = (decide (16 ≤ t) && decide (t ≤ 21)) := by
  rw [Bool.eq_iff_iff]
  simp only [List.elem_iff, List.mem_cons, List.not_mem_nil, or_false,
    decide_eq_true_eq, Bool.and_eq_true]
  omega

/-- Within the loop bound of the h264 scan, the body's return condition is
exactly the specification's "start code at `i` followed by an in-range IDR
NAL header". -/
theorem h264_hit_eq_spec (data : List Nat) (i : Nat) (h : i + 4 < data.length) :
    h264_hit data i = spec_h264_idr_at data i := by
  have h3 : i + 3 < data.length := by omega
  rw [Bool.eq_iff_iff]
  by_cases h0 : byteAt data i = 0
  · by_cases h1 : byteAt data (i+1) = 0
    · by_cases hb2 : byteAt data (i+2) = 0
      · simp [h264_hit, spec_h264_idr_at, h0, h1, hb2, h, h3]
      · by_cases hb2' : byteAt data (i+2) = 1
        · simp [h264_hit, spec_h264_idr_at, h0, h1, hb2, hb2', h, h3]
        · simp [h264_hit, spec_h264_idr_at, h0, h1, hb2, hb2']
    · simp [h264_hit, spec_h264_idr_at, h0, h1]
  · simp [h264_hit, spec_h264_idr_at, h0]

/-- Within the loop bound of the hevc scan, the body's return condition is
exactly the specification's "start code at `i` followed by an in-range IRAP
NAL header". -/
theorem hevc_hit_eq_spec (data : List Nat) (i : Nat) (h : i + 6 < data.length) :
    hevc_hit data i = spec_hevc_irap_at data i := by
  have h3 : i + 3 < data.length := by omega
  have h4 : i + 4 < data.length := by omega
  rw [Bool.eq_iff_iff]
  by_cases h0 : byteAt data i = 0
  · by_cases h1 : byteAt data (i+1) = 0
    · by_cases hb2 : byteAt data (i+2) = 0
      · simp only [hevc_hit, spec_hevc_irap_at, h0, h1, hb2, h3, h4, contains_irap]
        simp [h3, h4]
      · by_cases hb2' : byteAt data (i+2) = 1
        · simp only [hevc_hit, spec_hevc_irap_at, h0, h1, hb2, hb2', h3, h4, contains_irap]
          simp [h3, h4, hb2, hb2']
        · simp [hevc_hit, spec_hevc_irap_at, h0, h1, hb2, hb2']
    · simp [hevc_hit, spec_hevc_irap_at, h0, h1]
  · simp [hevc_hit, spec_hevc_irap_at, h0]

/-- An in-range checked access yields exactly the byte the unchecked
embedding reads. -/
theorem getByte_eq (data : List Nat) (i : Nat) (h : i < data.length) :
    getByte data i = some (byteAt data i) := by
  simp [getByte, byteAt, List.getElem?_eq_getElem h]

/-- Within the loop bound, the bounds-checked h264 body never fails and
agrees with the unchecked embedding. -/
theorem h264_hit_checked_eq (data : List Nat) (i : Nat) (h : i + 4 < data.length) :
    h264_hit_checked data i = some (h264_hit data i) := by
  have e0 := getByte_eq data i (by omega)
  have e1 := getByte_eq data (i+1) (by omega)
  have e2 := getByte_eq data (i+2) (by omega)
  have e3 := getByte_eq data (i+3) (by omega)
  by_cases h0 : byteAt data i = 0
  · by_cases h1 : byteAt data (i+1) = 0
    · by_cases hb2 : byteAt data (i+2) = 0
      · have e4 := getByte_eq data (i+4) (by omega)
        by_cases hb3 : byteAt data (i+3) = 1
        · simp [h264_hit_checked, h264_hit, e0, e1, e2, e3, e4, h0, h1, hb2, hb3, h]
        · simp [h264_hit_checked, h264_hit, e0, e1, e2, e3, h0, h1, hb2, hb3]
      · by_cases hb2' : byteAt data (i+2) = 1
        · simp [h264_hit_checked, h264_hit, e0, e1, e2, e3, h0, h1, hb2, hb2',
            show i + 3 < data.length by omega]
        · simp [h264_hit_checked, h264_hit, e0, e1, e2, h0, h1, hb2, hb2']
    · simp [h264_hit_checked, h264_hit, e0, e1, h0, h1]
  · simp [h264_hit_checked, h264_hit, e0, h0]

/-- Within the loop bound, the bounds-checked hevc body never fails and
agrees with the unchecked embedding. -/
theorem hevc_hit_checked_eq (data : List Nat) (i : Nat) (h : i + 6 < data.length) :
    hevc_hit_checked data i = some (hevc_hit data i) := by
  have e0 := getByte_eq data i (by omega)
  have e1 := getByte_eq data (i+1) (by omega)
  have e2 := getByte_eq data (i+2) (by omega)
  have e3 := getByte_eq data (i+3) (by omega)
  by_cases h0 : byteAt data i = 0
  · by_cases h1 : byteAt data (i+1) = 0
    · by_cases hb2 : byteAt data (i+2) = 0
      · have e4 := getByte_eq data (i+4) (by omega)
        by_cases hb3 : byteAt data (i+3) = 1
        · simp [hevc_hit_checked, hevc_hit, e0, e1, e2, e3, e4, h0, h1, hb2, hb3,
            show i + 4 < data.length by omega]
        · simp [hevc_hit_checked, hevc_hit, e0, e1, e2, e3, h0, h1, hb2, hb3]
      · by_cases hb2' : byteAt data (i+2) = 1
        · simp [hevc_hit_checked, hevc_hit, e0, e1, e2, e3, h0, h1, hb2, hb2',
            show i + 3 < data.length by omega]
        · simp [hevc_hit_checked, hevc_hit, e0, e1, e2, h0, h1, hb2, hb2']
    · simp [hevc_hit_checked, hevc_hit, e0, e1, h0, h1]
  · simp [hevc_hit_checked, hevc_hit, e0, h0]

/-- Within the loop bound, the bounds-checked h264 scan loop never fails
and agrees with the unchecked embedding. -/
theorem h264_loop_checked_eq (data : List Nat) (fuel : Nat) :
    ∀ i, i + fuel ≤ data.length - 4 →
      h264_loop_checked data i fuel = some (h264_loop data i fuel) := by
  induction fuel with
  | zero => intro i _; rfl
  | succ fuel ih =>
    intro i hf
    have hb : i + 4 < data.length := by omega
    simp only [h264_loop_checked, h264_loop, h264_hit_checked_eq data i hb]
    by_cases hhit : h264_hit data i = true
    · simp [hhit]
    · simpa [hhit] using ih (i+1) (by omega)

/-- Within the loop bound, the bounds-checked hevc scan loop never fails
and agrees with the unchecked embedding. -/
theorem hevc_loop_checked_eq (data : List Nat) (fuel : Nat) :
    ∀ i, i + fuel ≤ data.length - 6 →
      hevc_loop_checked data i fuel = some (hevc_loop data i fuel) := by
  induction fuel with
  | zero => intro i _; rfl
  | succ fuel ih =>
    intro i hf
    have hb : i + 6 < data.length := by omega
    simp only [hevc_loop_checked, hevc_loop, hevc_hit_checked_eq data i hb]
    by_cases hhit : hevc_hit data i = true
    · simp [hhit]
    · simpa [hhit] using ih (i+1) (by omega)

/-- C1: a binary frame shorter than 2 bytes is dropped silently; otherwise
byte 0 is the stream-type tag, 1 routing to the video channel and 2 to the
audio channel, any other value dropping the frame; only bytes 1..end are
forwarded, unmodified and in arrival order, to exactly one channel and never
to the other: over any frame sequence the video channel receives exactly the
tails of the length-at-least-2 frames tagged 1 and the audio channel exactly
the tails of those tagged 2, each in arrival order. -/
theorem C1_frame_routing (frames : List (List Nat)) :
    (∀ f : List Nat, f.length < 2 → demux_frame f = none) ∧
    (∀ tag payload, 2 ≤ (tag :: payload : List Nat).length →
      (tag = 1 → demux_frame (tag :: payload) = some (StreamType.video, payload)) ∧
      (tag = 2 → demux_frame (tag :: payload) = some (StreamType.audio, payload)) ∧
      (tag ≠ 1 → tag ≠ 2 → demux_frame (tag :: payload) = none)) ∧
    (demux_run frames).1 =
      (frames.filter (fun f => decide (2 ≤ f.length) && (f.headD 0 == 1))).map
        (fun f => f.drop 1) ∧
    (demux_run frames).2 =
      (frames.filter (fun f => decide (2 ≤ f.length) && (f.headD 0 == 2))).map
        (fun f => f.drop 1) := by
  refine ⟨?_, ?_, demux_video_channel frames, demux_audio_channel frames⟩
  · intro f hf
    simp [demux_frame, hf]
  · intro tag payload hlen
    have hnot : ¬ ((tag :: payload).length < 2) := by omega
    have hp : 1 ≤ payload.length := by
      simpa using hlen
    refine ⟨?_, ?_, ?_⟩
    · intro h
      subst h
      simp [demux_frame, hnot, hp]
    · intro h
      subst h
      simp [demux_frame, hnot, hp]
    · intro h1 h2
      simp [demux_frame, hnot, hp, h1, h2]

/-- Concrete instantiation of the frame-routing theorem on a mixed sequence:
a video frame, an audio frame, an unknown tag and a malformed frame. -/
theorem C1_frame_routing_witness :
    (demux_run [[1, 10, 11], [2, 20], [9, 1], [1]]).1 = [[10, 11]] ∧
    (demux_run [[1, 10, 11], [2, 20], [9, 1], [1]]).2 = [[20]] ∧
    demux_frame [1] = none := by
  refine ⟨?_, ?_, (C1_frame_routing []).1 [1] (by decide)⟩
  · rw [(C1_frame_routing [[1, 10, 11], [2, 20], [9, 1], [1]]).2.2.1]
    decide
  · rw [(C1_frame_routing [[1, 10, 11], [2, 20], [9, 1], [1]]).2.2.2]
    decide

/-- C2: after any session failure the supervisor tears down, passes through
the fixed delay, and starts a fresh attempt, indefinitely: every attempt
index is eventually reached in the authenticating phase whatever the failure
of each attempt is; teardown is followed by the delay and the delay by the
next attempt; and a new attempt only ever begins right after the delay
phase. -/
theorem C2_supervisor_retries_forever (events : Nat → FailureEvent) (n k a : Nat) :
    (∃ m, supervisor_iter events m = ⟨n, SupPhase.authenticating⟩) ∧
    (supervisor_step events ⟨a, SupPhase.teardown⟩ = ⟨a, SupPhase.delaying⟩) ∧
    (supervisor_step events ⟨a, SupPhase.delaying⟩ = ⟨a + 1, SupPhase.authenticating⟩) ∧
    ((supervisor_iter events (k+1)).attempt = (supervisor_iter events k).attempt + 1 →
      (supervisor_iter events k).phase = SupPhase.delaying) := by
  refine ⟨?_, rfl, rfl, ?_⟩
  · induction n with
    | zero => exact ⟨0, rfl⟩
    | succ n ih =>
      obtain ⟨m, hm⟩ := ih
      have unfold1 : ∀ j, supervisor_iter events (j + 1) =
          supervisor_step events (supervisor_iter events j) := fun j => rfl
      by_cases he : events n = .loginFailure
      · refine ⟨m + 1 + 1 + 1, ?_⟩
        have h1 : supervisor_iter events (m + 1) = ⟨n, SupPhase.teardown⟩ := by
          rw [unfold1, hm]
          simp [supervisor_step, he]
        have h2 : supervisor_iter events (m + 1 + 1) = ⟨n, SupPhase.delaying⟩ := by
          rw [unfold1, h1]
          simp [supervisor_step]
        rw [unfold1, h2]
        simp [supervisor_step]
      · refine ⟨m + 1 + 1 + 1 + 1, ?_⟩
        have h1 : supervisor_iter events (m + 1) = ⟨n, SupPhase.streaming⟩ := by
          rw [unfold1, hm]
          simp [supervisor_step, he]
        have h2 : supervisor_iter events (m + 1 + 1) = ⟨n, SupPhase.teardown⟩ := by
          rw [unfold1, h1]
          simp [supervisor_step]
        have h3 : supervisor_iter events (m + 1 + 1 + 1) = ⟨n, SupPhase.delaying⟩ := by
          rw [unfold1, h2]
          simp [supervisor_step]
        rw [unfold1, h3]
        simp [supervisor_step]
  · intro hk
    have hstep : supervisor_iter events (k+1) =
        supervisor_step events (supervisor_iter events k) := rfl
    rw [hstep] at hk
    rcases hp : (supervisor_iter events k).phase with _ | _ | _ | _
    · by_cases he : events (supervisor_iter events k).attempt = .loginFailure
      · simp [supervisor_step, hp, he] at hk
      · simp [supervisor_step, hp, he] at hk
    · simp [supervisor_step, hp] at hk
    · simp [supervisor_step, hp] at hk
    · rfl

/-- Concrete instantiation of the supervisor theorem: with every attempt
failing through a closed WebSocket, step 3 is the delay phase right before
attempt 1 begins at step 4. -/
theorem C2_supervisor_retries_witness :
    (supervisor_iter (fun _ => FailureEvent.wsClosed) 3).phase = SupPhase.delaying :=
  (C2_supervisor_retries_forever (fun _ => FailureEvent.wsClosed) 0 3 0).2.2.2 (by decide)

/-- C3: the producer-side write of a chunk never raises (it always returns
ok, the full-queue case included), on a full queue it drops the chunk and
leaves the channel unchanged, and over any sequence of chunks however long,
the capacity is preserved and the queue length never exceeds it, so the
producer is never blocked. -/
theorem C3_write_lossy_nonblocking (ch : PipeChannel) (chunk : List Nat)
    (chunks : List (List Nat)) :
    (∃ res, ch.write chunk = Except.ok res) ∧
    (ch.queue.length = ch.capacity → ch.write chunk = Except.ok (ch, false)) ∧
    (ch.writeAll chunks).capacity = ch.capacity ∧
    (ch.queue.length ≤ ch.capacity → (ch.writeAll chunks).queue.length ≤ ch.capacity) := by
  refine ⟨?_, ?_, writeAll_capacity chunks ch, fun h => writeAll_queue_bound chunks ch h⟩
  · by_cases h : ch.queue.length < ch.capacity
    · refine ⟨({ ch with queue := ch.queue ++ [chunk] }, true), ?_⟩
      simp [PipeChannel.write, h]
    · refine ⟨(ch, false), ?_⟩
      simp [PipeChannel.write, h]
  · intro h
    simp [PipeChannel.write, h]

/-- Concrete instantiation of the lossy-write theorem: a full channel drops
the chunk without error, and three writes into a capacity-2 channel keep the
queue within capacity. -/
theorem C3_write_lossy_nonblocking_witness :
    PipeChannel.write ⟨2, [[0], [1]]⟩ [5] = Except.ok (⟨2, [[0], [1]]⟩, false) ∧
    ((PipeChannel.mk 2 []).writeAll [[1], [2], [3]]).queue.length ≤ 2 := by
  constructor
  · exact (C3_write_lossy_nonblocking ⟨2, [[0], [1]]⟩ [5] []).2.1 (by decide)
  · exact (C3_write_lossy_nonblocking (PipeChannel.mk 2 []) [0] [[1], [2], [3]]).2.2.2
      (by decide)

/-- C4: the keyframe gate of one session moves at most once, from true to
false, at the first payload the detector accepts: a fresh session starts
with the gate engaged; an off gate forwards every payload unchanged without
rescanning and stays off; and starting engaged, the forwarded payloads are
exactly the suffix beginning at the first detected keyframe (every earlier
payload is dropped whole, the triggering payload and all later ones are
forwarded), the final gate being off exactly when some keyframe occurred. -/
theorem C4_keyframe_gate (video_codec : String) (frames : List (List Nat))
    (d : List Nat) :
    init_waiting_for_keyframe = true ∧
    handle_binary video_codec false d = (false, some d) ∧
    run_frames video_codec true frames =
      (!frames.any (fun f => is_keyframe video_codec f),
       frames.dropWhile (fun f => !is_keyframe video_codec f)) := by
  refine ⟨rfl, by simp [handle_binary], ?_⟩
  induction frames with
  | nil => rfl
  | cons f rest ih =>
    by_cases h : is_keyframe video_codec f = true
    · simp [run_frames, handle_binary, h, run_frames_gate_off]
    · simp [run_frames, handle_binary, h, ih]

/-- C5 fails as stated: the 4-byte h264 payload 00 00 01 65 contains a start
code followed by an IDR NAL header (unit type 5), yet the detector returns
false, because its scan loop only starts the search at indices below
length - 4. -/
theorem C5_counterexample_short_idr :
    spec_h264_contains_idr [0, 0, 1, 0x65] = true ∧
    is_keyframe "h264" [0, 0, 1, 0x65] = false := by decide

/-- C5 amended: the detector flips the gate iff a start code begins at some
index i with i + 4 < length (h264 variant) or i + 6 < length (hevc variant)
followed by an in-range NAL header whose unit type qualifies (5, or 16-21);
in particular a payload with no qualifying NAL unit leaves the gate set. -/
theorem C5_scan_characterization (data : List Nat) :
    (is_keyframe "h264" data = true ↔
      ∃ i, i + 4 < data.length ∧ spec_h264_idr_at data i = true) ∧
    (is_keyframe "hevc" data = true ↔
      ∃ i, i + 6 < data.length ∧ spec_hevc_irap_at data i = true) := by
  constructor
  · have e : is_keyframe "h264" data = h264_loop data 0 (data.length - 4) := by
      simp [is_keyframe]
    rw [e, h264_loop_eq_true_iff data (data.length - 4) 0]
    constructor
    · rintro ⟨j, hj, hhit⟩
      have hb : j + 4 < data.length := by omega
      refine ⟨j, hb, ?_⟩
      rw [← h264_hit_eq_spec data j hb]
      simpa using hhit
    · rintro ⟨i, hb, hspec⟩
      refine ⟨i, by omega, ?_⟩
      have hz : (0 : Nat) + i = i := by omega
      rw [hz, h264_hit_eq_spec data i hb]
      exact hspec
  · have e : is_keyframe "hevc" data = hevc_loop data 0 (data.length - 6) := by
      simp [is_keyframe]
    rw [e, hevc_loop_eq_true_iff data (data.length - 6) 0]
    constructor
    · rintro ⟨j, hj, hhit⟩
      have hb : j + 6 < data.length := by omega
      refine ⟨j, hb, ?_⟩
      rw [← hevc_hit_eq_spec data j hb]
      simpa using hhit
    · rintro ⟨i, hb, hspec⟩
      refine ⟨i, by omega, ?_⟩
      have hz : (0 : Nat) + i = i := by omega
      rw [hz, hevc_hit_eq_spec data i hb]
      exact hspec

/-- C6: login returns true iff both the login POST and the status GET return
HTTP 200; every non-success status and every caught transport exception
yields false, no path raises, and each call is consulted exactly once. -/
theorem C6_login_iff (r1 r2 : HttpResult) :
    login r1 r2 = true ↔ r1 = HttpResult.response 200 ∧ r2 = HttpResult.response 200 := by
  cases r1 with
  | transportError => simp [login]
  | response s =>
    cases r2 with
    | transportError =>
      simp only [login]
      by_cases h : s = 200
      · subst h
        simp
      · simp [h]
    | response s2 =>
      simp only [login]
      by_cases h : s = 200
      · subst h
        by_cases h2 : s2 = 200
        · subst h2
          simp
        · simp [h2]
      · simp [h]

/-- C7: stopping the external process requests graceful termination, waits
the bounded 5 s grace period and kills on expiry; the handle is cleared on
every path, a second call is a no-op, a call on an already-exited handle is
a safe no-op, and every way a session of run can end performs the stop as
its final lifecycle action. -/
theorem C7_stop_process (p : Option ProcPoll) (g g2 : Bool) (e : SessionEnd) :
    (stop_ffmpeg p g).1 = none ∧
    stop_ffmpeg (stop_ffmpeg p g).1 g2 = (none, StopAction.noop) ∧
    stop_ffmpeg (some ProcPoll.exited) g = (none, StopAction.noop) ∧
    stop_ffmpeg (some ProcPoll.running) true = (none, StopAction.terminated) ∧
    stop_ffmpeg (some ProcPoll.running) false = (none, StopAction.killed) ∧
    (run_actions e).getLast? = some SessionAction.stopProcess := by
  have h1 : (stop_ffmpeg p g).1 = none := by
    cases p with
    | none => rfl
    | some st =>
      cases st with
      | running => cases g <;> rfl
      | exited => rfl
  refine ⟨h1, ?_, rfl, rfl, rfl, ?_⟩
  · rw [h1]
    rfl
  · cases e <;> rfl

/-- C8: while streaming, the receive loop of run ends exactly when one of
the enumerated events occurs: the WebSocket errors or closes, the 60 s
receive deadline elapses with no message, or an attempted write toward the
process does not complete (the 10 s stall timeout elapses, or the write
fails with a broken pipe); any other message, and any binary frame the gate
drops without a write, continues the loop. -/
theorem C8_loop_exit_iff (video_codec : String) (waiting : Bool)
    (r : RecvOutcome) (w : WriteResult) :
    loop_iteration video_codec waiting r w = LoopStep.exitLoop ↔
      r = RecvOutcome.recvTimeout ∨ r = RecvOutcome.msg WSMsg.wsError ∨
      r = RecvOutcome.msg WSMsg.wsClose ∨
      ∃ d, r = RecvOutcome.msg (WSMsg.binary d) ∧
        (handle_binary video_codec waiting d).2 ≠ none ∧ w ≠ WriteResult.completed := by
  cases r with
  | recvTimeout => simp [loop_iteration]
  | msg m =>
    cases m with
    | wsError => simp [loop_iteration]
    | wsClose => simp [loop_iteration]
    | otherType => simp [loop_iteration]
    | binary d =>
      rcases hb : handle_binary video_codec waiting d with ⟨w2, o⟩
      cases o with
      | none => simp [loop_iteration, hb]
      | some out => cases w <;> simp [loop_iteration, hb]

/-- C9: the keyframe detector is total: for every codec string and every
payload, the bounds-checked rendering (in which every byte access fails on
an out-of-range index, as Python indexing would) succeeds and returns
exactly the detector's boolean, so no access is out of range. -/
theorem C9_detector_total (video_codec : String) (data : List Nat) :
    is_keyframe_checked video_codec data = some (is_keyframe video_codec data) := by
  by_cases h4 : video_codec = "h264"
  · subst h4
    simp only [is_keyframe_checked, is_keyframe]
    exact h264_loop_checked_eq data (data.length - 4) 0 (by omega)
  · by_cases h5 : video_codec = "hevc"
    · subst h5
      simp only [is_keyframe_checked, is_keyframe]
      exact hevc_loop_checked_eq data (data.length - 6) 0 (by omega)
    · simp [is_keyframe_checked, is_keyframe, h4, h5]

/-- C10: the detector unconditionally rejects short payloads: every h264
payload of length at most 4 and every hevc payload of length at most 6
returns false, because the scan loop bound excludes every start position;
such payloads are dropped whole while the gate is engaged. -/
theorem C10_short_payload_rejected (data : List Nat) :
    (data.length ≤ 4 → is_keyframe "h264" data = false) ∧
    (data.length ≤ 6 → is_keyframe "hevc" data = false) ∧
    (data.length ≤ 4 → handle_binary "h264" true data = (true, none)) ∧
    (data.length ≤ 6 → handle_binary "hevc" true data = (true, none)) := by
  have g1 : data.length ≤ 4 → is_keyframe "h264" data = false := by
    intro h
    simp [is_keyframe, Nat.sub_eq_zero_of_le h, h264_loop]
  have g2 : data.length ≤ 6 → is_keyframe "hevc" data = false := by
    intro h
    simp [is_keyframe, Nat.sub_eq_zero_of_le h, hevc_loop]
  refine ⟨g1, g2, ?_, ?_⟩
  · intro h
    simp [handle_binary, g1 h]
  · intro h
    simp [handle_binary, g2 h]

/-- Concrete instantiation of the short-payload theorem at payloads that are
exactly a valid start code followed by a qualifying NAL header: both are
still rejected. -/
theorem C10_short_payload_rejected_witness :
    is_keyframe "h264" [0, 0, 1, 0x65] = false ∧
    is_keyframe "hevc" [0, 0, 0, 1, 0x26, 0] = false :=
  ⟨(C10_short_payload_rejected [0, 0, 1, 0x65]).1 (by decide),
   (C10_short_payload_rejected [0, 0, 0, 1, 0x26, 0]).2.1 (by decide)⟩

end Micam
